import Mathlib

/-!
Verification of the `unit_test_bug` ink! contract (src/lib.rs) against its
natural-language specification.

The contract stores a single `bool`. Its messages are embedded as pure
state-passing functions: `&mut self` methods take the storage struct and
return the result paired with the post-call storage; `&self` methods take
the storage and return only the result (an immutable borrow cannot mutate).
-/

/-- The contract's single error kind (src/lib.rs lines 8-11). -/
inductive FlipError where
  | FlipError
deriving DecidableEq, Repr

/-- The contract storage: a single `bool` value (src/lib.rs lines 16-20). -/
structure UnitTestBug where
  value : Bool
deriving DecidableEq, Repr

namespace UnitTestBug

/-- Constructor `new`: initializes `value` to `init_value` (src/lib.rs lines 25-27). -/
def new (init_value : Bool) : UnitTestBug :=
  { value := init_value }

/-- Constructor `default`: delegates to `new` with `Default::default()`,
which for `bool` is `false` (src/lib.rs lines 33-35). -/
def default : UnitTestBug :=
  new false

/-- Message `flip_with_error` (src/lib.rs lines 41-45): assigns
`self.value = !self.value` and then returns `Err(FlipError)`. Under the
direct call semantics of the Rust code the assignment has already taken
effect when the error is returned, so the post-call storage carries the
negated value. -/
def flip_with_error (s : UnitTestBug) : Except FlipError Unit × UnitTestBug :=
  let s1 : UnitTestBug := { s with value := !s.value }
  (Except.error FlipError.FlipError, s1)

/-- Message `get` (src/lib.rs lines 49-51): returns the current `value`.
It takes `&self`, so it cannot mutate the storage. -/
def get (s : UnitTestBug) : Bool :=
  s.value

/-- A message call on the contract: the two entry points callable after
construction. -/
inductive Op where
  | flipWithError
  | getMsg
deriving DecidableEq, Repr

/-- Storage after one message call. `flip_with_error` takes `&mut self` and
its post-call storage is the second component of its result; `get` takes
`&self` (an immutable borrow) and thus leaves storage unchanged. -/
def step (s : UnitTestBug) : Op → UnitTestBug
  | Op.flipWithError => (flip_with_error s).2
  | Op.getMsg => s

/-- Storage after a sequence of message calls, left to right. -/
def run (s : UnitTestBug) : List Op → UnitTestBug
  | [] => s
  | o :: os => run (step s o) os

end UnitTestBug

open UnitTestBug

/-- C1: the claim says a `flip_with_error` call that returns `Err(FlipError)`
leaves `get()` unchanged. The code violates this: starting from `new(false)`,
`get` returns `false`, the call returns `Err(FlipError)`, yet `get` on the
post-call storage returns `true` — the mutation was applied before the error
was returned, contradicting the comment on src/lib.rs line 43 and the unit
test assertion on line 78. -/
theorem c1_atomicity_violated_at_new_false :
    get (new false) = false ∧
    (flip_with_error (new false)).1 = Except.error FlipError.FlipError ∧
    get (flip_with_error (new false)).2 = true :=
  ⟨rfl, rfl, rfl⟩

/-- C2: the claim says Scenario 1 (`new(false)`) and Scenario 2 (`new(true)`)
each return `Err(FlipError)` from `flip_with_error` and then `get` returns the
original initial value. The error part holds, but the code leaves `get` at the
negated value in both scenarios: `true` after `new(false)` and `false` after
`new(true)`. -/
theorem c2_scenarios_return_negated_value :
    (flip_with_error (new false)).1 = Except.error FlipError.FlipError ∧
    get (flip_with_error (new false)).2 = true ∧
    (flip_with_error (new true)).1 = Except.error FlipError.FlipError ∧
    get (flip_with_error (new true)).2 = false :=
  ⟨rfl, rfl, rfl, rfl⟩

/-- C3: for every stored state, `flip_with_error` returns `Err(FlipError)`;
`Ok(())` is unreachable. -/
theorem c3_flip_always_errors (s : UnitTestBug) :
    (flip_with_error s).1 = Except.error FlipError.FlipError :=
  rfl

/-- C4: the claim says the stored value is never one produced by a call that
reported failure. The code violates this on the sequence
`new(false); flip_with_error()`: the call reports failure, yet the stored
value is `true`, the candidate produced by that failing call, not the `false`
established by construction (the most recent successful operation). -/
theorem c4_invariant_violated_after_failed_flip :
    (flip_with_error (new false)).1 = Except.error FlipError.FlipError ∧
    (run (new false) [Op.flipWithError]).value = true ∧
    (new false).value = false :=
  ⟨rfl, rfl, rfl⟩

/-- C5: for every stored value `v`, `flip_with_error` applies the mutation
before returning the error: the post-call stored value is `!v` even though
the result is `Err(FlipError)` — no rollback occurs under the direct
call semantics. -/
theorem c5_flip_negates_despite_error (s : UnitTestBug) :
    (flip_with_error s).2.value = !s.value ∧
    (flip_with_error s).1 = Except.error FlipError.FlipError :=
  ⟨rfl, rfl⟩

/-- C6: for every initial value, two consecutive `flip_with_error` calls each
return `Err(FlipError)`, and `get` after both calls returns the original
initial value (the two negations cancel). -/
theorem c6_double_flip_restores_initial (init : Bool) :
    (flip_with_error (new init)).1 = Except.error FlipError.FlipError ∧
    (flip_with_error (flip_with_error (new init)).2).1
      = Except.error FlipError.FlipError ∧
    get (run (new init) [Op.flipWithError, Op.flipWithError]) = init := by
  cases init <;> exact ⟨rfl, rfl, rfl⟩

/-- C7: for every initial value `init`, `new init` stores `init`, so an
immediate `get` returns `init`; construction is total with no error
condition. -/
theorem c7_new_stores_initial_value (init : Bool) :
    (new init).value = init ∧ get (new init) = init :=
  ⟨rfl, rfl⟩

/-- C8: `default` delegates to `new` with `bool`'s default value `false`,
so `get` on the default-constructed contract returns `false`. -/
theorem c8_default_reads_false :
    UnitTestBug.default = new false ∧ get UnitTestBug.default = false :=
  ⟨rfl, rfl⟩

/-- C9: `get` is side-effect-free and idempotent: calling it leaves the
storage unchanged, and a second `get` with no intervening mutating call
returns the same value. -/
theorem c9_get_pure_and_idempotent (s : UnitTestBug) :
    step s Op.getMsg = s ∧ get (step s Op.getMsg) = get s :=
  ⟨rfl, rfl⟩

/-- C10: every public operation is a total function of its inputs and the
stored state — `new`, `default`, `get` and `flip_with_error` each produce a
result for every input, with no partial construct (no indexing, division or
unwrap in the source). -/
theorem c10_operations_total (b : Bool) (s : UnitTestBug) :
    (∃ u : UnitTestBug, new b = u) ∧
    (∃ u : UnitTestBug, UnitTestBug.default = u) ∧
    (∃ v : Bool, get s = v) ∧
    (∃ p : Except FlipError Unit × UnitTestBug, flip_with_error s = p) :=
  ⟨⟨new b, rfl⟩, ⟨UnitTestBug.default, rfl⟩, ⟨get s, rfl⟩,
    ⟨flip_with_error s, rfl⟩⟩
